import Mathlib

/-!
Shallow embedding of the region-scoped permission engine of the
short-skirt-long-jacket repository, together with proofs about it.

The embedding follows the Python source:
  * `app/apps/auth/models.py`      — the permission store rows;
  * `app/apps/auth/decorators.py`  — `check_resource_permission`,
    `get_user_permitted_regions` (the standalone evaluator);
  * `app/apps/cities/mixins.py`    — `RegionScopedAdminMixin`
    (`_resolve_region`, `_user_can_access_region`, `_get_user_region_ids`,
    `_log_denied`, `get_queryset`, `_filter_queryset_by_regions`,
    `save_model`);
  * `app/apps/auth/mixins.py`      — `PermissionRequiredMixin`
    (`check_resource_permission`, `log_permission_access`).

Database tables are lists of rows; the Django `queryset.filter(...)` becomes
`List.filter`, `.exists()` becomes `isEmpty = false`, `.distinct()` becomes
`List.dedup`.  Foreign keys are carried as ids, and the implicit inner join
`resource_permission__field=value` is made explicit by looking the referenced
row up in the `ResourcePermission` table.  `timezone.now()` is passed as an
explicit parameter `now : Time`.  All functions are total, so "never raises"
is expressed by the functions living in plain (non-`Except`) types, except
where the source itself raises (`save_model`) or catches (`_log_denied`).
-/

namespace App

abbrev RegionId := Nat

abbrev GroupId := Nat

abbrev RPId := Nat

abbrev UserId := Nat

abbrev Time := Nat

/-- Region row (`cities/models.py`): id plus unique code and name. -/
structure Region where
  id : RegionId
  code : String
  name : String
deriving DecidableEq, Repr

/-- The fields of the user that the permission engine reads
(`auth/models.py` User / Django auth): identity, `is_authenticated`,
`is_superuser`, and the ids of the Django groups the user belongs to
(`user.groups`). -/
structure User where
  id : UserId
  is_authenticated : Bool
  is_superuser : Bool
  groups : List GroupId
deriving DecidableEq, Repr

/-- ResourcePermission row (`auth/models.py`): the (resource_name,
permission_type) pair is unique together; `is_active` exists on the row but
the evaluator never filters on it. -/
structure ResourcePermission where
  id : RPId
  resource_name : String
  permission_type : String
  is_active : Bool
deriving DecidableEq, Repr

/-- UserPermission row (`auth/models.py`): a direct user grant, linking a
user to a ResourcePermission, with `is_active` and optional `expires_at`.
It has no region field. -/
structure UserPermission where
  user : UserId
  resource_permission : RPId
  expires_at : Option Time
  is_active : Bool
deriving DecidableEq, Repr

/-- Modelled from the spec: the `GroupResourcePermission` model class itself
is not among the provided source files (only its callers in
`auth/decorators.py`, `cities/mixins.py`, the admin and the tests are).
Spec section 3: "links one Group to one ResourcePermission, with an optional
`region` (nullable foreign key). ... `region = null` means the grant applies
globally across all regions."  The fields match every use in the callers
(`group`, `resource_permission`, `region` / `region_id`). -/
structure GroupResourcePermission where
  group : GroupId
  resource_permission : RPId
  region : Option RegionId
deriving DecidableEq, Repr

/-- UserGroup row (`auth/models.py`): custom membership table used by
`PermissionRequiredMixin`, with an `is_active` flag. -/
structure UserGroup where
  user : UserId
  group : GroupId
  is_active : Bool
deriving DecidableEq, Repr

/-- GroupPermission row (`auth/models.py`): custom group grant table used by
`PermissionRequiredMixin`; it has no region field. -/
structure GroupPermission where
  group : GroupId
  resource_permission : RPId
deriving DecidableEq, Repr

/-- The queryable relations the permission engine reads. -/
structure DB where
  resource_permissions : List ResourcePermission
  user_permissions : List UserPermission
  group_resource_permissions : List GroupResourcePermission
  user_groups : List UserGroup
  group_permissions : List GroupPermission
deriving Repr

/-- The implicit Django join `resource_permission__resource_name=rn,
resource_permission__permission_type=pt`: the row referenced by the foreign
key exists in the ResourcePermission table and carries the requested pair.
Note that `ResourcePermission.is_active` is not consulted — exactly as in
the source queries. -/
def rpJoinMatches (db : DB) (rpid : RPId) (resource_name permission_type : String) : Bool :=
  db.resource_permissions.any fun rp =>
    rp.id == rpid && rp.resource_name == resource_name && rp.permission_type == permission_type

/-- Django filter `Q(expires_at__isnull=True) | Q(expires_at__gt=timezone.now())`. -/
def not_expired (now : Time) (up : UserPermission) : Bool :=
  match up.expires_at with
  | none => true
  | some t => now < t

/-- The direct-grant query shared verbatim by `decorators.py` (both
functions) and `auth/mixins.py`:
`user.custom_permissions.filter(resource_permission__resource_name=...,
resource_permission__permission_type=..., is_active=True).filter(
Q(expires_at__isnull=True) | Q(expires_at__gt=timezone.now()))`. -/
def matching_user_perms (db : DB) (now : Time) (user : User)
    (resource_name permission_type : String) : List UserPermission :=
  (db.user_permissions.filter fun up =>
      up.user == user.id
      && rpJoinMatches db up.resource_permission resource_name permission_type
      && up.is_active).filter
    (not_expired now)

/-- The group-grant query of `decorators.py`:
`GroupResourcePermission.objects.filter(group__in=user.groups,
resource_permission__resource_name=..., resource_permission__permission_type=...)`. -/
def matching_group_perms (db : DB) (user : User)
    (resource_name permission_type : String) : List GroupResourcePermission :=
  db.group_resource_permissions.filter fun gp =>
    user.groups.contains gp.group
    && rpJoinMatches db gp.resource_permission resource_name permission_type

namespace decorators

/-- Embedding of `check_resource_permission` (`auth/decorators.py`, lines
13–48).  The `region` parameter is the optional Region argument; the Python
`if region:` is truth-testing a model instance (always truthy) or `None`,
i.e. `region.isSome` here. -/
def check_resource_permission (db : DB) (now : Time) (user : User)
    (resource_name permission_type : String) (region : Option RegionId) : Bool :=
  if !user.is_authenticated then
    false
  else if !(matching_user_perms db now user resource_name permission_type).isEmpty then
    true
  else
    let group_perms := matching_group_perms db user resource_name permission_type
    let group_perms :=
      match region with
      | some r => group_perms.filter fun (gp : GroupResourcePermission) =>
          gp.region.isNone || gp.region == some r
      | none => group_perms
    !group_perms.isEmpty

/-- Embedding of `get_user_permitted_regions` (`auth/decorators.py`, lines
51–84).  The Python function returns `None` for global access ("no region
restriction"), else `list(...values_list(region_id, flat=True).distinct())`;
here `none` is the Global sentinel and the concrete list carries the
(nullable) `region_id` column values. -/
def get_user_permitted_regions (db : DB) (now : Time) (user : User)
    (resource_name permission_type : String) : Option (List (Option RegionId)) :=
  if !user.is_authenticated then
    some []
  else if !(matching_user_perms db now user resource_name permission_type).isEmpty then
    none
  else
    let group_perms := matching_group_perms db user resource_name permission_type
    if !(group_perms.filter fun gp => gp.region.isNone).isEmpty then
      none
    else
      some ((group_perms.map fun gp => gp.region).dedup)

end decorators

/-- State row (`cities/models.py`): its `region` foreign key is nullable
(`null=True`). -/
structure State where
  id : Nat
  region : Option Region
deriving DecidableEq, Repr

/-- IntermediateRegion row (`cities/models.py`).  Its `state` link is
carried as an option because `_resolve_region` guards it (`if obj.state`). -/
structure IntermediateRegion where
  id : Nat
  state : Option State
deriving DecidableEq, Repr

/-- ImmediateRegion row (`cities/models.py`); the `intermediate_region`
link is guarded by `_resolve_region`. -/
structure ImmediateRegion where
  id : Nat
  intermediate_region : Option IntermediateRegion
deriving DecidableEq, Repr

/-- Municipality row (`cities/models.py`); the `immediate_region` link is
guarded by `_resolve_region`. -/
structure Municipality where
  id : Nat
  immediate_region : Option ImmediateRegion
deriving DecidableEq, Repr

/-- A value of one of the five geography model classes — the possible
dynamic types `_resolve_region` distinguishes with `isinstance`. -/
inductive GeoNode where
  | region (r : Region)
  | state (s : State)
  | intermediateRegion (ir : IntermediateRegion)
  | immediateRegion (im : ImmediateRegion)
  | municipality (m : Municipality)
deriving DecidableEq, Repr

/-- The five geography model classes themselves (`qs.model`). -/
inductive GeoModel where
  | region
  | state
  | intermediateRegion
  | immediateRegion
  | municipality
deriving DecidableEq, Repr

/-- Model class of a row. -/
def nodeModel : GeoNode → GeoModel
  | .region _ => .region
  | .state _ => .state
  | .intermediateRegion _ => .intermediateRegion
  | .immediateRegion _ => .immediateRegion
  | .municipality _ => .municipality

/-- An append-only audit record (`auth/models.py` PermissionLog), reduced to
the fields the mixins write. -/
structure PermissionLog where
  user : UserId
  action : String
  resource : String
  details : String
deriving DecidableEq, Repr

/-- The audit side of the world: the PermissionLog table plus the messages
sent to the process logger (`logger.error`). -/
structure AuditState where
  logs : List PermissionLog
  logger_errors : List String
deriving DecidableEq, Repr

/-- Write attempt `PermissionLog.objects.create(...)`: fails with the given
exception message when `db_failure` is set, otherwise appends the entry. -/
def permission_log_create (db_failure : Option String) (st : AuditState)
    (entry : PermissionLog) : Except String AuditState :=
  match db_failure with
  | some e => Except.error e
  | none => Except.ok { st with logs := st.logs ++ [entry] }

namespace cities_mixins

/-- Embedding of `RegionScopedAdminMixin._resolve_region`
(`cities/mixins.py`, lines 32–52): the `isinstance` chain, with each branch
written exactly as its guards in the source. -/
def resolve_region : Option GeoNode → Option Region
  | none => none
  | some (.region r) => some r
  | some (.state s) => s.region
  | some (.intermediateRegion ir) =>
      match ir.state with
      | some s => s.region
      | none => none
  | some (.immediateRegion im) =>
      match (match im.intermediate_region with
             | some ir => ir.state
             | none => none) with
      | some s => s.region
      | none => none
  | some (.municipality m) =>
      match m.immediate_region with
      | some im =>
          match im.intermediate_region with
          | some ir =>
              match ir.state with
              | some s => s.region
              | none => none
          | none => none
      | none => none

/-- Embedding of `RegionScopedAdminMixin._user_can_access_region`
(`cities/mixins.py`, lines 54–65): superuser short-circuit, then the
standalone evaluator.  `resource_name` stands for the value of
`self.get_region_resource_name()`. -/
def user_can_access_region (db : DB) (now : Time) (user : User)
    (resource_name : String) (region : Option RegionId)
    (permission_type : String) : Bool :=
  if user.is_superuser then
    true
  else
    decorators.check_resource_permission db now user resource_name permission_type region

/-- Embedding of `RegionScopedAdminMixin._get_user_region_ids`
(`cities/mixins.py`, lines 67–78): superuser gets `None` (global), others
get `get_user_permitted_regions`. -/
def get_user_region_ids (db : DB) (now : Time) (user : User)
    (resource_name permission_type : String) : Option (List (Option RegionId)) :=
  if user.is_superuser then
    none
  else
    decorators.get_user_permitted_regions db now user resource_name permission_type

/-- Embedding of `RegionScopedAdminMixin._log_denied` (`cities/mixins.py`,
lines 80–95): the `PermissionLog.objects.create` call sits inside
`try/except Exception`, which turns a failed write into a `logger.error`
message; the function itself always returns (it has no error outcome). -/
def log_denied (db_failure : Option String) (st : AuditState)
    (entry : PermissionLog) : AuditState :=
  match permission_log_create db_failure st entry with
  | Except.ok st2 => st2
  | Except.error e =>
      { st with logger_errors := st.logger_errors ++ ["Failed to log permission denial: " ++ e] }

/-- SQL semantics of `column IN (list)` on a nullable column: a NULL value
matches nothing (and a NULL element in the list matches no value). -/
def sqlIn (v : Option RegionId) (ids : List (Option RegionId)) : Bool :=
  match v with
  | some i => ids.contains (some i)
  | none => false

/-- Embedding of `RegionScopedAdminMixin._filter_queryset_by_regions`
(`cities/mixins.py`, lines 154–169): one branch per model class, each with
its own join path down to `region_id` (`id__in`, `region_id__in`,
`state__region_id__in`, `intermediate_region__state__region_id__in`,
`immediate_region__intermediate_region__state__region_id__in`).  A queryset
is homogeneous, so rows of another model class do not occur; the embedding
maps them to `false` (excluded). -/
def filter_queryset_by_regions (qs : List GeoNode)
    (region_ids : List (Option RegionId)) (model : GeoModel) : List GeoNode :=
  match model with
  | .region => qs.filter fun o =>
      match o with
      | .region r => sqlIn (some r.id) region_ids
      | _ => false
  | .state => qs.filter fun o =>
      match o with
      | .state s => sqlIn (s.region.map fun r => r.id) region_ids
      | _ => false
  | .intermediateRegion => qs.filter fun o =>
      match o with
      | .intermediateRegion ir =>
          sqlIn ((ir.state.bind fun s => s.region).map fun r => r.id) region_ids
      | _ => false
  | .immediateRegion => qs.filter fun o =>
      match o with
      | .immediateRegion im =>
          sqlIn (((im.intermediate_region.bind fun ir => ir.state).bind fun s =>
            s.region).map fun r => r.id) region_ids
      | _ => false
  | .municipality => qs.filter fun o =>
      match o with
      | .municipality m =>
          sqlIn ((((m.immediate_region.bind fun im => im.intermediate_region).bind fun ir =>
            ir.state).bind fun s => s.region).map fun r => r.id) region_ids
      | _ => false

/-- Embedding of `RegionScopedAdminMixin.get_queryset` (`cities/mixins.py`,
lines 139–152): superusers see everything; `None` from
`_get_user_region_ids` means global (queryset unchanged); an empty list
means `qs.none()`; otherwise filter by region. -/
def get_queryset (db : DB) (now : Time) (user : User) (resource_name : String)
    (model : GeoModel) (qs : List GeoNode) : List GeoNode :=
  if user.is_superuser then
    qs
  else
    match get_user_region_ids db now user resource_name "view" with
    | none => qs
    | some region_ids =>
        if region_ids.isEmpty then
          []
        else
          filter_queryset_by_regions qs region_ids model

/-- Embedding of `RegionScopedAdminMixin.save_model` (`cities/mixins.py`,
lines 171–178): for a non-superuser, resolve the region of the object and check
access; on denial, write the audit entry through `_log_denied` and raise
`PermissionDenied`.  The first component is the decision (`Except.error`
standing for the raised `PermissionDenied`); the second is the audit state
after the call.  The actual save (`super().save_model`) is out of scope. -/
def save_model (db : DB) (now : Time) (db_failure : Option String)
    (user : User) (resource_name : String) (obj : Option GeoNode)
    (change : Bool) (st : AuditState) : Except String Unit × AuditState :=
  if user.is_superuser then
    (Except.ok (), st)
  else
    let region := resolve_region obj
    let action := if change then "change" else "add"
    if user_can_access_region db now user resource_name
        (region.map fun r => r.id) action then
      (Except.ok (), st)
    else
      let st2 := log_denied db_failure st
        { user := user.id, action := "access_denied", resource := resource_name,
          details := "Denied " ++ action }
      (Except.error ("You do not have " ++ action ++ " permission for this region."), st2)

end cities_mixins

namespace auth_mixins

/-- Embedding of `PermissionRequiredMixin.log_permission_access`
(`auth/mixins.py`, lines 90–104): builds the audit entry, attempts the
write, and catches any exception into a `logger.error` message; the caller
never sees a failure. -/
def log_permission_access (db_failure : Option String) (st : AuditState)
    (user : User) (resource_name permission_type : String)
    (granted : Bool) : AuditState :=
  let entry : PermissionLog :=
    { user := user.id
      action := if granted then "granted" else "access_denied"
      resource := resource_name ++ "." ++ permission_type
      details := "Access " ++ (if granted then "granted" else "denied")
        ++ " for " ++ resource_name }
  match permission_log_create db_failure st entry with
  | Except.ok st2 => st2
  | Except.error e =>
      { st with logger_errors := st.logger_errors ++ ["Failed to log permission access: " ++ e] }

/-- The membership query of `PermissionRequiredMixin`:
`UserGroup.objects.filter(user=user, is_active=True).values_list(group)`. -/
def active_user_group_ids (db : DB) (user : User) : List GroupId :=
  (db.user_groups.filter fun ug => ug.user == user.id && ug.is_active).map
    fun ug => ug.group

/-- Embedding of `PermissionRequiredMixin.check_resource_permission`
(`auth/mixins.py`, lines 49–88): direct grants exactly as in
`decorators.py`; group grants via the custom `UserGroup`/`GroupPermission`
tables; every outcome is passed to `log_permission_access`.  The result is
the boolean decision paired with the audit state after logging. -/
def check_resource_permission (db : DB) (now : Time) (db_failure : Option String)
    (user : User) (resource_name permission_type : String)
    (st : AuditState) : Bool × AuditState :=
  if !(matching_user_perms db now user resource_name permission_type).isEmpty then
    (true, log_permission_access db_failure st user resource_name permission_type true)
  else
    let user_groups := active_user_group_ids db user
    let group_perms := db.group_permissions.filter fun gp =>
      user_groups.contains gp.group
      && rpJoinMatches db gp.resource_permission resource_name permission_type
    if !group_perms.isEmpty then
      (true, log_permission_access db_failure st user resource_name permission_type true)
    else
      (false, log_permission_access db_failure st user resource_name permission_type false)

end auth_mixins

/-- Modelled from the spec (section 4.1), for the refinement comparison of
the resolver: "walks node→parent chain up to the Region; returns `None` if
`node is None` or if any ancestor link along the path is unset".  The walk
is the monadic chain of parent links, one hop per level (a Region resolves
to itself; a Municipality traverses municipality → immediate region →
intermediate region → state → region). -/
def spec_chain_region : Option GeoNode → Option Region
  | none => none
  | some (.region r) => some r
  | some (.state s) => s.region
  | some (.intermediateRegion ir) => ir.state.bind fun s => s.region
  | some (.immediateRegion im) =>
      (im.intermediate_region.bind fun ir => ir.state).bind fun s => s.region
  | some (.municipality m) =>
      ((m.immediate_region.bind fun im => im.intermediate_region).bind fun ir =>
        ir.state).bind fun s => s.region

/-! Helper lemmas about the query combinators. -/

/-- A filtered table is non-empty (`.exists()`) exactly when some row
satisfies the filter. -/
theorem filter_isEmpty_false_iff {α : Type} {p : α → Bool} {l : List α} :
    (l.filter p).isEmpty = false ↔ ∃ x ∈ l, p x = true := by
  rw [List.isEmpty_eq_false, Ne, List.filter_eq_nil_iff]
  push_neg
  rfl

/-- The direct-grant query is non-empty exactly when some UserPermission row
of the user joins to the requested pair, is active, and is unexpired. -/
theorem matching_user_perms_exists (db : DB) (now : Time) (user : User)
    (resource_name permission_type : String) :
    (matching_user_perms db now user resource_name permission_type).isEmpty = false ↔
    ∃ up ∈ db.user_permissions,
      (up.user == user.id
        && rpJoinMatches db up.resource_permission resource_name permission_type
        && up.is_active) = true ∧ not_expired now up = true := by
  rw [matching_user_perms, filter_isEmpty_false_iff]
  constructor
  · rintro ⟨up, hmem, hexp⟩
    rw [List.mem_filter] at hmem
    exact ⟨up, hmem.1, hmem.2, hexp⟩
  · rintro ⟨up, hmem, hcond, hexp⟩
    exact ⟨up, List.mem_filter.mpr ⟨hmem, hcond⟩, hexp⟩

/-- The group-grant query is non-empty exactly when some
GroupResourcePermission row of one of the groups of the user joins to the
requested pair. -/
theorem matching_group_perms_exists (db : DB) (user : User)
    (resource_name permission_type : String) :
    (matching_group_perms db user resource_name permission_type).isEmpty = false ↔
    ∃ gp ∈ db.group_resource_permissions,
      (user.groups.contains gp.group
        && rpJoinMatches db gp.resource_permission resource_name permission_type) = true := by
  rw [matching_group_perms, filter_isEmpty_false_iff]

/-- Deduplicating a non-empty constant list yields a singleton. -/
theorem dedup_eq_singleton_of_forall_eq {α : Type} [DecidableEq α]
    (l : List α) (v : α) (hne : l ≠ []) (h : ∀ x ∈ l, x = v) :
    l.dedup = [v] := by
  induction l with
  | nil => exact absurd rfl hne
  | cons x xs ih =>
    have hx : x = v := h x (List.mem_cons_self x xs)
    subst hx
    cases xs with
    | nil => simp
    | cons y ys =>
      have hy : y = x := h y (by simp)
      have hmem : x ∈ y :: ys := by
        rw [hy]
        exact List.mem_cons_self x ys
      rw [List.dedup_cons_of_mem hmem]
      exact ih (by simp) fun z hz => h z (List.mem_cons_of_mem _ hz)

/-! Concrete fixtures used in counterexamples and witnesses. -/

/-- An empty permission store. -/
def db_empty : DB :=
  { resource_permissions := []
    user_permissions := []
    group_resource_permissions := []
    user_groups := []
    group_permissions := [] }

/-- An authenticated superuser holding no grant rows at all. -/
def superuser_no_rows : User :=
  { id := 1, is_authenticated := true, is_superuser := true, groups := [] }

/-! Claim C1. -/

/-- Claim C1, counterexample.  The claim states that for every superuser the
access check returns true and the permitted-regions computation returns the
Global sentinel, naming `check_resource_permission` and
`get_user_permitted_regions` among its code places.  Those two standalone
evaluator functions never consult `is_superuser`: an authenticated superuser
with no grant rows is denied by `check_resource_permission` (for every
region argument, here `None`) and receives the empty set — not the Global
sentinel — from `get_user_permitted_regions`. -/
theorem superuser_not_bypassed_in_standalone_evaluator :
    superuser_no_rows.is_superuser = true ∧
    decorators.check_resource_permission db_empty 0 superuser_no_rows
      "cities.municipality" "view" none = false ∧
    decorators.get_user_permitted_regions db_empty 0 superuser_no_rows
      "cities.municipality" "view" = some [] := by
  decide

/-- Claim C1, amended.  The superuser bypass holds at the admin-gate layer:
for every store, time, resource name, permission type and region argument
(including `None`), `RegionScopedAdminMixin._user_can_access_region` returns
true and `RegionScopedAdminMixin._get_user_region_ids` returns the Global
sentinel (`None`) whenever the user is a superuser, regardless of what
UserPermission or GroupResourcePermission rows exist — whereas the
standalone evaluator functions themselves do not special-case superusers. -/
theorem superuser_bypass_at_admin_gate (db : DB) (now : Time) (user : User)
    (resource_name permission_type : String) (region : Option RegionId)
    (h : user.is_superuser = true) :
    cities_mixins.user_can_access_region db now user resource_name region
      permission_type = true ∧
    cities_mixins.get_user_region_ids db now user resource_name
      permission_type = none := by
  constructor
  · rw [cities_mixins.user_can_access_region, h]
    rfl
  · rw [cities_mixins.get_user_region_ids, h]
    rfl

/-- Claim C1, witness for the amended theorem: the superuser with no rows is
let through the gate with global scope. -/
theorem superuser_bypass_at_admin_gate_witness :
    cities_mixins.user_can_access_region db_empty 0 superuser_no_rows
      "cities.municipality" (some 1) "view" = true ∧
    cities_mixins.get_user_region_ids db_empty 0 superuser_no_rows
      "cities.municipality" "view" = none :=
  superuser_bypass_at_admin_gate db_empty 0 superuser_no_rows
    "cities.municipality" "view" (some 1) rfl

/-! Claim C2. -/

/-- Claim C2: an authenticated user holding at least one UserPermission for
the pair with `is_active = true` and `expires_at` null or strictly in the
future is granted by `check_resource_permission` for every region argument
(including `None`) and receives the Global sentinel from
`get_user_permitted_regions`, regardless of group grants. -/
theorem direct_grant_globality (db : DB) (now : Time) (user : User)
    (resource_name permission_type : String)
    (hauth : user.is_authenticated = true)
    (hup : ∃ up ∈ db.user_permissions,
      (up.user == user.id
        && rpJoinMatches db up.resource_permission resource_name permission_type
        && up.is_active) = true ∧ not_expired now up = true) :
    (∀ region, decorators.check_resource_permission db now user
      resource_name permission_type region = true) ∧
    decorators.get_user_permitted_regions db now user
      resource_name permission_type = none := by
  have hne : (matching_user_perms db now user resource_name permission_type).isEmpty = false :=
    (matching_user_perms_exists db now user resource_name permission_type).mpr hup
  constructor
  · intro region
    rw [decorators.check_resource_permission, hauth, hne]
    rfl
  · rw [decorators.get_user_permitted_regions, hauth, hne]
    rfl

/-- A store holding one ResourcePermission row for (cities.municipality,
view), one direct UserPermission grant for user 2 on it (active, no
expiry), and no group grants. -/
def db_direct : DB :=
  { resource_permissions :=
      [{ id := 1, resource_name := "cities.municipality",
         permission_type := "view", is_active := true }]
    user_permissions :=
      [{ user := 2, resource_permission := 1, expires_at := none, is_active := true }]
    group_resource_permissions := []
    user_groups := []
    group_permissions := [] }

/-- The holder of the direct grant in `db_direct`. -/
def direct_user : User :=
  { id := 2, is_authenticated := true, is_superuser := false, groups := [] }

/-- Claim C2, witness: the direct grant lets user 2 in to an arbitrary
concrete region (id 9) and yields the Global sentinel. -/
theorem direct_grant_globality_witness :
    decorators.check_resource_permission db_direct 0 direct_user
      "cities.municipality" "view" (some 9) = true ∧
    decorators.get_user_permitted_regions db_direct 0 direct_user
      "cities.municipality" "view" = none := by
  have h := direct_grant_globality db_direct 0 direct_user
    "cities.municipality" "view" rfl (by decide)
  exact ⟨h.1 (some 9), h.2⟩

/-! Claim C3. -/

/-- Claim C3: an authenticated non-superuser whose only grant for the pair
is a group grant scoped to region `a` (all matching group rows carry
`region = a`, there is at least one, and no direct user grant matches) is
allowed for region A, refused for every distinct region `b`, and
receives exactly the singleton permitted set `{a}`. -/
theorem region_isolation (db : DB) (now : Time) (user : User)
    (resource_name permission_type : String) (a : RegionId)
    (hauth : user.is_authenticated = true)
    (_hsuper : user.is_superuser = false)
    (hnoup : matching_user_perms db now user resource_name permission_type = [])
    (hne : matching_group_perms db user resource_name permission_type ≠ [])
    (hall : ∀ gp ∈ matching_group_perms db user resource_name permission_type,
      gp.region = some a) :
    decorators.check_resource_permission db now user resource_name
      permission_type (some a) = true ∧
    (∀ b, b ≠ a → decorators.check_resource_permission db now user
      resource_name permission_type (some b) = false) ∧
    decorators.get_user_permitted_regions db now user resource_name
      permission_type = some [some a] := by
  have hup : (matching_user_perms db now user resource_name permission_type).isEmpty = true := by
    rw [hnoup]
    rfl
  refine ⟨?_, ?_, ?_⟩
  · rw [decorators.check_resource_permission, hauth, hup]
    have hkeep : (matching_group_perms db user resource_name
        permission_type).filter (fun gp => gp.region.isNone || gp.region == some a) =
        matching_group_perms db user resource_name permission_type := by
      apply List.filter_eq_self.mpr
      intro gp hgp
      rw [hall gp hgp]
      simp
    simp only [Bool.not_true, Bool.false_eq_true, if_false, if_true, hkeep]
    simp [List.isEmpty_eq_false, hne]
  · intro b hb
    rw [decorators.check_resource_permission, hauth, hup]
    have hdrop : (matching_group_perms db user resource_name
        permission_type).filter (fun gp => gp.region.isNone || gp.region == some b) = [] := by
      apply List.filter_eq_nil_iff.mpr
      intro gp hgp
      rw [hall gp hgp]
      simp
      exact fun h => absurd h.symm hb
    simp only [Bool.not_true, Bool.false_eq_true, if_false, if_true, hdrop]
    rfl
  · rw [decorators.get_user_permitted_regions, hauth, hup]
    have hnull : (matching_group_perms db user resource_name
        permission_type).filter (fun gp => gp.region.isNone) = [] := by
      apply List.filter_eq_nil_iff.mpr
      intro gp hgp
      rw [hall gp hgp]
      simp
    have hmap : ((matching_group_perms db user resource_name
        permission_type).map fun gp => gp.region).dedup = [some a] := by
      apply dedup_eq_singleton_of_forall_eq
      · intro hmap
        exact hne (List.map_eq_nil_iff.mp hmap)
      · intro x hx
        obtain ⟨gp, hgp, hxeq⟩ := List.mem_map.mp hx
        rw [← hxeq]
        exact hall gp hgp
    simp only [Bool.not_true, Bool.false_eq_true, if_false, if_true, hnull, hmap]
    rfl

/-- A store with one ResourcePermission row for (cities.municipality, view)
and a single group grant for group 10 scoped to region 1; no direct
grants. -/
def db_scoped : DB :=
  { resource_permissions :=
      [{ id := 1, resource_name := "cities.municipality",
         permission_type := "view", is_active := true }]
    user_permissions := []
    group_resource_permissions :=
      [{ group := 10, resource_permission := 1, region := some 1 }]
    user_groups := []
    group_permissions := [] }

/-- An authenticated non-superuser member of group 10. -/
def scoped_user : User :=
  { id := 3, is_authenticated := true, is_superuser := false, groups := [10] }

/-- Claim C3, witness: the group member scoped to region 1 passes the check for
region 1, refused for region 2, and holds exactly the permitted set
containing the id of region 1. -/
theorem region_isolation_witness :
    decorators.check_resource_permission db_scoped 0 scoped_user
      "cities.municipality" "view" (some 1) = true ∧
    decorators.check_resource_permission db_scoped 0 scoped_user
      "cities.municipality" "view" (some 2) = false ∧
    decorators.get_user_permitted_regions db_scoped 0 scoped_user
      "cities.municipality" "view" = some [some 1] := by
  have h := region_isolation db_scoped 0 scoped_user
    "cities.municipality" "view" 1 rfl rfl (by decide) (by decide) (by decide)
  exact ⟨h.1, h.2.1 2 (by decide), h.2.2⟩

/-! Claim C4. -/

/-- Claim C4: with region argument `None`, `check_resource_permission`
applies no region restriction to group grants — for an authenticated user
the check succeeds exactly when either a direct grant matches or some
GroupResourcePermission row of one of the groups of the user joins to the
pair, whatever that row holds in its own `region` field. -/
theorem unscoped_check_ignores_grant_regions (db : DB) (now : Time)
    (user : User) (resource_name permission_type : String)
    (hauth : user.is_authenticated = true) :
    decorators.check_resource_permission db now user resource_name
      permission_type none = true ↔
    ((matching_user_perms db now user resource_name permission_type).isEmpty = false ∨
      ∃ gp ∈ db.group_resource_permissions,
        (user.groups.contains gp.group
          && rpJoinMatches db gp.resource_permission resource_name permission_type) = true) := by
  rw [decorators.check_resource_permission, hauth]
  cases hup : (matching_user_perms db now user resource_name permission_type).isEmpty
  · simp
  · simp only [Bool.not_true, Bool.false_eq_true, if_false, Bool.not_false, if_true]
    rw [Bool.not_eq_true', matching_group_perms_exists]
    simp

/-- Claim C4, witness: in `db_scoped` the only grant row carries a concrete
region (region 1), yet the unscoped check (region argument `None`)
succeeds. -/
theorem unscoped_check_ignores_grant_regions_witness :
    decorators.check_resource_permission db_scoped 0 scoped_user
      "cities.municipality" "view" none = true := by
  exact (unscoped_check_ignores_grant_regions db_scoped 0 scoped_user
    "cities.municipality" "view" rfl).mpr (Or.inr (by decide))

/-! Claim C5. -/

/-- Claim C5: an authenticated non-superuser with no UserPermission row and
no GroupResourcePermission row joining to the pair — in particular whenever
no ResourcePermission row exists for the pair at all — is refused by
`check_resource_permission` for every region argument and receives the
empty set (not the Global sentinel) from `get_user_permitted_regions`; both
functions are total, so neither can raise. -/
theorem no_grant_denies (db : DB) (now : Time) (user : User)
    (resource_name permission_type : String)
    (hauth : user.is_authenticated = true)
    (_hsuper : user.is_superuser = false)
    (hnoup : ∀ up ∈ db.user_permissions,
      ¬((up.user == user.id
        && rpJoinMatches db up.resource_permission resource_name permission_type) = true))
    (hnogp : ∀ gp ∈ db.group_resource_permissions,
      ¬((user.groups.contains gp.group
        && rpJoinMatches db gp.resource_permission resource_name permission_type) = true)) :
    (∀ region, decorators.check_resource_permission db now user
      resource_name permission_type region = false) ∧
    decorators.get_user_permitted_regions db now user
      resource_name permission_type = some [] := by
  have hup : matching_user_perms db now user resource_name permission_type = [] := by
    rw [matching_user_perms]
    have h1 : db.user_permissions.filter (fun up =>
        up.user == user.id
        && rpJoinMatches db up.resource_permission resource_name permission_type
        && up.is_active) = [] := by
      apply List.filter_eq_nil_iff.mpr
      intro up hmem
      have := hnoup up hmem
      simp only [Bool.and_eq_true] at this ⊢
      tauto
    rw [h1]
    rfl
  have hgp : matching_group_perms db user resource_name permission_type = [] := by
    apply List.filter_eq_nil_iff.mpr
    exact hnogp
  have hup' : (matching_user_perms db now user resource_name permission_type).isEmpty = true := by
    rw [hup]
    rfl
  constructor
  · intro region
    rw [decorators.check_resource_permission, hauth, hup']
    cases region <;>
      simp [hgp]
  · rw [decorators.get_user_permitted_regions, hauth, hup']
    simp [hgp]

/-- A misconfigured store: the ResourcePermission table is empty, yet a
UserPermission row and a GroupResourcePermission row are present — their
foreign keys dangle, so they join to nothing. -/
def db_misconfigured : DB :=
  { resource_permissions := []
    user_permissions :=
      [{ user := 4, resource_permission := 1, expires_at := none, is_active := true }]
    group_resource_permissions :=
      [{ group := 10, resource_permission := 1, region := some 1 }]
    user_groups := []
    group_permissions := [] }

/-- The authenticated non-superuser of `db_misconfigured`. -/
def misconfigured_user : User :=
  { id := 4, is_authenticated := true, is_superuser := false, groups := [10] }

/-- Claim C5, witness: with no ResourcePermission row for the pair, the
check refuses (region 1 and the unscoped check alike) and the permitted set
is empty. -/
theorem no_grant_denies_witness :
    decorators.check_resource_permission db_misconfigured 0 misconfigured_user
      "cities.municipality" "view" (some 1) = false ∧
    decorators.check_resource_permission db_misconfigured 0 misconfigured_user
      "cities.municipality" "view" none = false ∧
    decorators.get_user_permitted_regions db_misconfigured 0 misconfigured_user
      "cities.municipality" "view" = some [] := by
  have h := no_grant_denies db_misconfigured 0 misconfigured_user
    "cities.municipality" "view" rfl rfl (by decide) (by decide)
  exact ⟨h.1 (some 1), h.1 none, h.2⟩

/-! Claim C6. -/

/-- Claim C6: for every input (each of the five node kinds and the `None`
node), the `isinstance` chain of `_resolve_region` computes exactly the
walk along the parent chain up to the owning Region — the monadic chain
`spec_chain_region` written from the spec — which in particular resolves a
Region to itself, traverses three parent hops for a Municipality, and
returns `None` whenever the node is `None` or any parent or region link
along the path is unset.  Both functions are total, so no input can make
the resolver raise. -/
theorem resolver_walks_parent_chain (node : Option GeoNode) :
    cities_mixins.resolve_region node = spec_chain_region node := by
  match node with
  | none => rfl
  | some (.region r) => rfl
  | some (.state s) => rfl
  | some (.intermediateRegion ir) =>
    obtain ⟨i, st⟩ := ir
    cases st <;> rfl
  | some (.immediateRegion im) =>
    obtain ⟨i, iro⟩ := im
    cases iro with
    | none => rfl
    | some ir =>
      obtain ⟨i2, st⟩ := ir
      cases st <;> rfl
  | some (.municipality m) =>
    obtain ⟨i, imo⟩ := m
    cases imo with
    | none => rfl
    | some im =>
      obtain ⟨i2, iro⟩ := im
      cases iro with
      | none => rfl
      | some ir =>
        obtain ⟨i3, st⟩ := ir
        cases st <;> rfl

/-! Claim C7. -/

/-- The per-model join paths of `_filter_queryset_by_regions` select exactly
the rows whose resolved Region id is in the permitted list, provided the
queryset is homogeneous over the dispatched model class. -/
theorem filter_queryset_by_regions_eq (qs : List GeoNode)
    (region_ids : List (Option RegionId)) (model : GeoModel)
    (hmodel : ∀ o ∈ qs, nodeModel o = model) :
    cities_mixins.filter_queryset_by_regions qs region_ids model =
    qs.filter fun o =>
      match cities_mixins.resolve_region (some o) with
      | some r => region_ids.contains (some r.id)
      | none => false := by
  cases model with
  | region =>
    rw [cities_mixins.filter_queryset_by_regions]
    apply List.filter_congr
    intro o ho
    have hm := hmodel o ho
    cases o with
    | region r => rfl
    | state s => exact GeoModel.noConfusion hm
    | intermediateRegion ir => exact GeoModel.noConfusion hm
    | immediateRegion im => exact GeoModel.noConfusion hm
    | municipality m => exact GeoModel.noConfusion hm
  | state =>
    rw [cities_mixins.filter_queryset_by_regions]
    apply List.filter_congr
    intro o ho
    have hm := hmodel o ho
    cases o with
    | state s =>
      obtain ⟨i, ro⟩ := s
      cases ro <;> rfl
    | region r => exact GeoModel.noConfusion hm
    | intermediateRegion ir => exact GeoModel.noConfusion hm
    | immediateRegion im => exact GeoModel.noConfusion hm
    | municipality m => exact GeoModel.noConfusion hm
  | intermediateRegion =>
    rw [cities_mixins.filter_queryset_by_regions]
    apply List.filter_congr
    intro o ho
    have hm := hmodel o ho
    cases o with
    | intermediateRegion ir =>
      obtain ⟨i, sto⟩ := ir
      cases sto with
      | none => rfl
      | some s =>
        obtain ⟨i2, ro⟩ := s
        cases ro <;> rfl
    | region r => exact GeoModel.noConfusion hm
    | state s => exact GeoModel.noConfusion hm
    | immediateRegion im => exact GeoModel.noConfusion hm
    | municipality m => exact GeoModel.noConfusion hm
  | immediateRegion =>
    rw [cities_mixins.filter_queryset_by_regions]
    apply List.filter_congr
    intro o ho
    have hm := hmodel o ho
    cases o with
    | immediateRegion im =>
      obtain ⟨i, iro⟩ := im
      cases iro with
      | none => rfl
      | some ir =>
        obtain ⟨i2, sto⟩ := ir
        cases sto with
        | none => rfl
        | some s =>
          obtain ⟨i3, ro⟩ := s
          cases ro <;> rfl
    | region r => exact GeoModel.noConfusion hm
    | state s => exact GeoModel.noConfusion hm
    | intermediateRegion ir => exact GeoModel.noConfusion hm
    | municipality m => exact GeoModel.noConfusion hm
  | municipality =>
    rw [cities_mixins.filter_queryset_by_regions]
    apply List.filter_congr
    intro o ho
    have hm := hmodel o ho
    cases o with
    | municipality m =>
      obtain ⟨i, imo⟩ := m
      cases imo with
      | none => rfl
      | some im =>
        obtain ⟨i2, iro⟩ := im
        cases iro with
        | none => rfl
        | some ir =>
          obtain ⟨i3, sto⟩ := ir
          cases sto with
          | none => rfl
          | some s =>
            obtain ⟨i4, ro⟩ := s
            cases ro <;> rfl
    | region r => exact GeoModel.noConfusion hm
    | state s => exact GeoModel.noConfusion hm
    | intermediateRegion ir => exact GeoModel.noConfusion hm
    | immediateRegion im => exact GeoModel.noConfusion hm

/-- Claim C7: for a non-superuser and a homogeneous queryset over one of
the five geography models, `get_queryset` returns the queryset unchanged
when the permitted-regions computation yields the Global sentinel, an empty
result when it yields the empty set, and otherwise exactly those rows whose
resolved Region id is a member of the permitted set. -/
theorem queryset_filtering_roundtrip (db : DB) (now : Time) (user : User)
    (resource_name : String) (model : GeoModel) (qs : List GeoNode)
    (hsuper : user.is_superuser = false)
    (hmodel : ∀ o ∈ qs, nodeModel o = model) :
    (decorators.get_user_permitted_regions db now user resource_name "view" = none →
      cities_mixins.get_queryset db now user resource_name model qs = qs) ∧
    (decorators.get_user_permitted_regions db now user resource_name "view" = some [] →
      cities_mixins.get_queryset db now user resource_name model qs = []) ∧
    (∀ ids, decorators.get_user_permitted_regions db now user resource_name "view" = some ids →
      cities_mixins.get_queryset db now user resource_name model qs =
        qs.filter fun o =>
          match cities_mixins.resolve_region (some o) with
          | some r => ids.contains (some r.id)
          | none => false) := by
  have hgate : cities_mixins.get_user_region_ids db now user resource_name "view" =
      decorators.get_user_permitted_regions db now user resource_name "view" := by
    rw [cities_mixins.get_user_region_ids, hsuper]
    rfl
  refine ⟨?_, ?_, ?_⟩
  · intro h
    simp only [cities_mixins.get_queryset, hsuper, Bool.false_eq_true, if_false, hgate, h]
  · intro h
    simp only [cities_mixins.get_queryset, hsuper, Bool.false_eq_true, if_false, hgate, h,
      List.isEmpty_nil, if_true]
  · intro ids h
    simp only [cities_mixins.get_queryset, hsuper, Bool.false_eq_true, if_false, hgate, h]
    cases hids : ids.isEmpty
    · simp only [Bool.false_eq_true, if_false]
      exact filter_queryset_by_regions_eq qs ids model hmodel
    · have hnil : ids = [] := List.isEmpty_iff.mp hids
      subst hnil
      simp only [if_true]
      symm
      apply List.filter_eq_nil_iff.mpr
      intro o _ho
      cases cities_mixins.resolve_region (some o) <;> simp

/-- Region fixtures for the queryset witness: the two top-level regions. -/
def region_ne : Region := { id := 1, code := "NE", name := "Nordeste" }

/-- The second region of the witness scenario. -/
def region_s : Region := { id := 2, code := "S", name := "Sul" }

/-- A municipality whose parent chain reaches region 1. -/
def muni_ne : Municipality :=
  { id := 101
    immediate_region := some
      { id := 81
        intermediate_region := some
          { id := 61
            state := some { id := 41, region := some region_ne } } } }

/-- A municipality whose parent chain reaches region 2. -/
def muni_s : Municipality :=
  { id := 102
    immediate_region := some
      { id := 82
        intermediate_region := some
          { id := 62
            state := some { id := 42, region := some region_s } } } }

/-- Claim C7, witness: for the user scoped to region 1 only, filtering a
municipality queryset drawn from regions 1 and 2 yields exactly the
region-1 subset. -/
theorem queryset_filtering_roundtrip_witness :
    cities_mixins.get_queryset db_scoped 0 scoped_user "cities.municipality"
      GeoModel.municipality [GeoNode.municipality muni_ne, GeoNode.municipality muni_s] =
    [GeoNode.municipality muni_ne] := by
  have h := (queryset_filtering_roundtrip db_scoped 0 scoped_user
    "cities.municipality" GeoModel.municipality
    [GeoNode.municipality muni_ne, GeoNode.municipality muni_s]
    rfl (by decide)).2.2 [some 1] (by decide)
  rw [h]
  decide

/-! Claim C8. -/

/-- Claim C8: a failing PermissionLog write is caught inside the logging
helpers and only reported to the logging facility, never propagated — the
access decision (the raised `PermissionDenied` of `save_model` and the
boolean of the mixin evaluator) is identical whether the audit write fails
with any exception or succeeds, and on failure the helpers return normally
with the failure recorded as a `logger.error` message. -/
theorem audit_write_failure_isolated (db : DB) (now : Time)
    (db_failure : Option String) (user : User)
    (resource_name permission_type : String) (obj : Option GeoNode)
    (change : Bool) (st : AuditState) :
    (cities_mixins.save_model db now db_failure user resource_name obj change st).1 =
      (cities_mixins.save_model db now none user resource_name obj change st).1 ∧
    (auth_mixins.check_resource_permission db now db_failure user resource_name
      permission_type st).1 =
      (auth_mixins.check_resource_permission db now none user resource_name
        permission_type st).1 ∧
    (∀ e entry, cities_mixins.log_denied (some e) st entry =
      { st with logger_errors :=
        st.logger_errors ++ ["Failed to log permission denial: " ++ e] }) ∧
    (∀ e granted, auth_mixins.log_permission_access (some e) st user resource_name
      permission_type granted =
      { st with logger_errors :=
        st.logger_errors ++ ["Failed to log permission access: " ++ e] }) := by
  refine ⟨?_, ?_, fun e entry => rfl, fun e granted => rfl⟩
  · cases hsu : user.is_superuser
    · simp only [cities_mixins.save_model, hsu, Bool.false_eq_true, if_false]
      cases hacc : cities_mixins.user_can_access_region db now user resource_name
          ((cities_mixins.resolve_region obj).map fun r => r.id)
          (if change then "change" else "add") <;>
        simp [hacc]
    · simp [cities_mixins.save_model, hsu]
  · cases hup : (matching_user_perms db now user resource_name permission_type).isEmpty
    · simp [auth_mixins.check_resource_permission, hup]
    · simp only [auth_mixins.check_resource_permission, hup, Bool.not_true,
        Bool.false_eq_true, if_false]
      cases hgp : (db.group_permissions.filter fun gp =>
          (auth_mixins.active_user_group_ids db user).contains gp.group
          && rpJoinMatches db gp.resource_permission resource_name permission_type).isEmpty <;>
        simp [hgp]

/-! Claim C9. -/

/-- Claim C9: over the same grant data — when the active custom-group
membership of the user coincides with the Django group membership, and the
custom `GroupPermission` table holds a (group, resource permission) pair
exactly when the `GroupResourcePermission` table does — the boolean decided
by the mixin copy of the evaluator equals the decision of the standalone
evaluator called without a region argument, for every authenticated user:
the two near-duplicate reimplementations are the same unscoped evaluator. -/
theorem duplicate_evaluator_equivalence (db : DB) (now : Time)
    (db_failure : Option String) (user : User)
    (resource_name permission_type : String) (st : AuditState)
    (hauth : user.is_authenticated = true)
    (hgroups : ∀ g, g ∈ auth_mixins.active_user_group_ids db user ↔ g ∈ user.groups)
    (hgrants : ∀ g rpid,
      (∃ gp ∈ db.group_permissions,
        gp.group = g ∧ gp.resource_permission = rpid) ↔
      (∃ gp ∈ db.group_resource_permissions,
        gp.group = g ∧ gp.resource_permission = rpid)) :
    (auth_mixins.check_resource_permission db now db_failure user resource_name
      permission_type st).1 =
    decorators.check_resource_permission db now user resource_name
      permission_type none := by
  rw [decorators.check_resource_permission, hauth]
  cases hup : (matching_user_perms db now user resource_name permission_type).isEmpty
  · simp [auth_mixins.check_resource_permission, hup]
  · simp only [auth_mixins.check_resource_permission, hup, Bool.not_true,
      Bool.not_false, Bool.false_eq_true, if_false, if_true]
    have key : (db.group_permissions.filter fun gp =>
        (auth_mixins.active_user_group_ids db user).contains gp.group
        && rpJoinMatches db gp.resource_permission resource_name permission_type).isEmpty
        = (matching_group_perms db user resource_name permission_type).isEmpty := by
      have hiff : ((db.group_permissions.filter fun gp =>
          (auth_mixins.active_user_group_ids db user).contains gp.group
          && rpJoinMatches db gp.resource_permission resource_name
            permission_type).isEmpty = false)
          ↔ ((matching_group_perms db user resource_name
              permission_type).isEmpty = false) := by
        rw [filter_isEmpty_false_iff, matching_group_perms_exists]
        constructor
        · rintro ⟨gp, hmem, hcond⟩
          rw [Bool.and_eq_true] at hcond
          obtain ⟨hcg, hcj⟩ := hcond
          have hg : gp.group ∈ user.groups :=
            (hgroups gp.group).mp (List.elem_iff.mp hcg)
          obtain ⟨gp2, hmem2, hgeq, hrpeq⟩ :=
            (hgrants gp.group gp.resource_permission).mp ⟨gp, hmem, rfl, rfl⟩
          refine ⟨gp2, hmem2, ?_⟩
          rw [Bool.and_eq_true]
          constructor
          · rw [hgeq]
            exact List.elem_iff.mpr hg
          · rw [hrpeq]
            exact hcj
        · rintro ⟨gp, hmem, hcond⟩
          rw [Bool.and_eq_true] at hcond
          obtain ⟨hcg, hcj⟩ := hcond
          obtain ⟨gp2, hmem2, hgeq, hrpeq⟩ :=
            (hgrants gp.group gp.resource_permission).mpr ⟨gp, hmem, rfl, rfl⟩
          refine ⟨gp2, hmem2, ?_⟩
          rw [Bool.and_eq_true]
          constructor
          · rw [hgeq]
            exact List.elem_iff.mpr ((hgroups gp.group).mpr (List.elem_iff.mp hcg))
          · rw [hrpeq]
            exact hcj
      cases hl : (db.group_permissions.filter fun gp =>
          (auth_mixins.active_user_group_ids db user).contains gp.group
          && rpJoinMatches db gp.resource_permission resource_name
            permission_type).isEmpty
      · cases hr : (matching_group_perms db user resource_name permission_type).isEmpty
        · rfl
        · have h2 := hiff.mp hl
          rw [hr] at h2
          exact Bool.noConfusion h2
      · cases hr : (matching_group_perms db user resource_name permission_type).isEmpty
        · have h2 := hiff.mpr hr
          rw [hl] at h2
          exact Bool.noConfusion h2
        · rfl
    rw [key]
    cases hr : (matching_group_perms db user resource_name permission_type).isEmpty <;>
      simp [hr]

/-- A store whose two group-grant representations are aligned: user 5 is an
active member of group 10 in the custom membership table and a Django
member of group 10, and group 10 holds the (cities.municipality, view)
grant in both GroupPermission and GroupResourcePermission (the latter
scoped to region 1 — irrelevant to the unscoped check). -/
def db_dup : DB :=
  { resource_permissions :=
      [{ id := 1, resource_name := "cities.municipality",
         permission_type := "view", is_active := true }]
    user_permissions := []
    group_resource_permissions :=
      [{ group := 10, resource_permission := 1, region := some 1 }]
    user_groups := [{ user := 5, group := 10, is_active := true }]
    group_permissions := [{ group := 10, resource_permission := 1 }]
  }

/-- The authenticated non-superuser of `db_dup`. -/
def dup_user : User :=
  { id := 5, is_authenticated := true, is_superuser := false, groups := [10] }

/-- Claim C9, witness: on the aligned store the two evaluator copies decide
identically for the unscoped check. -/
theorem duplicate_evaluator_equivalence_witness :
    (auth_mixins.check_resource_permission db_dup 0 none dup_user
      "cities.municipality" "view" { logs := [], logger_errors := [] }).1 =
    decorators.check_resource_permission db_dup 0 dup_user
      "cities.municipality" "view" none := by
  exact duplicate_evaluator_equivalence db_dup 0 none dup_user
    "cities.municipality" "view" { logs := [], logger_errors := [] }
    rfl (fun g => Iff.rfl) (fun g rpid => by simp [db_dup])

/-! Claim C10. -/

/-- Claim C10: whenever `get_user_permitted_regions` returns a concrete
list rather than the Global sentinel, every element of that list is a
non-null region id (a null-region grant row would have forced the Global
result first) and the list carries no duplicates. -/
theorem permitted_regions_concrete_list_invariant (db : DB) (now : Time)
    (user : User) (resource_name permission_type : String)
    (l : List (Option RegionId))
    (h : decorators.get_user_permitted_regions db now user resource_name
      permission_type = some l) :
    (∀ x ∈ l, x ≠ none) ∧ l.Nodup := by
  rw [decorators.get_user_permitted_regions] at h
  cases hauth : user.is_authenticated
  · rw [hauth] at h
    simp only [Bool.not_false, if_true, Option.some.injEq] at h
    subst h
    exact ⟨by simp, List.nodup_nil⟩
  · rw [hauth] at h
    simp only [Bool.not_true, Bool.false_eq_true, if_false] at h
    cases hup : (matching_user_perms db now user resource_name permission_type).isEmpty
    · rw [hup] at h
      simp only [Bool.not_false, if_true] at h
      exact Option.noConfusion h
    · rw [hup] at h
      simp only [Bool.not_true, Bool.false_eq_true, if_false] at h
      cases hnull : ((matching_group_perms db user resource_name
          permission_type).filter fun gp => gp.region.isNone).isEmpty
      · rw [hnull] at h
        simp only [Bool.not_false, if_true] at h
        exact Option.noConfusion h
      · rw [hnull] at h
        simp only [Bool.not_true, Bool.false_eq_true, if_false,
          Option.some.injEq] at h
        subst h
        constructor
        · intro x hx
          rw [List.mem_dedup] at hx
          obtain ⟨gp, hgp, hxeq⟩ := List.mem_map.mp hx
          have hfilter : (matching_group_perms db user resource_name
              permission_type).filter (fun gp => gp.region.isNone) = [] :=
            List.isEmpty_iff.mp hnull
          have hnotnull := List.filter_eq_nil_iff.mp hfilter gp hgp
          rw [← hxeq]
          intro hcontra
          apply hnotnull
          rw [hcontra]
          rfl
        · exact List.nodup_dedup _

/-- Claim C10, witness: on the region-scoped store the concrete result list
is `[some 1]` — its sole element is a non-null id and it has no
duplicates. -/
theorem permitted_regions_concrete_list_invariant_witness :
    (some 1 : Option RegionId) ≠ none ∧
    List.Nodup [(some 1 : Option RegionId)] := by
  have h := permitted_regions_concrete_list_invariant db_scoped 0 scoped_user
    "cities.municipality" "view" [some 1] (by decide)
  exact ⟨h.1 (some 1) (by simp), h.2⟩

end App
